import Mathlib

/-!
Verification of the H.264 deblocking filter core (x86 SIMD assembly,
`deblock.asm`).  The assembly processes one byte lane per pixel line; we
embed the per-lane semantics of every packed instruction as a function on
`Nat` (values in `[0,255]`), and each assembly macro / entry point as the
corresponding composition, following the instruction sequence of the
source.  Comparison masks (`pcmpeqb` results) are the lane values `0` or
`255`, exactly as in the machine.

The only instruction whose lanes interact is `psrlw` (16-bit word shift)
applied to byte data: the low byte of each word receives the bottom bits
of its high-byte neighbour.  We model this with an explicit contamination
parameter `c` (the neighbour's shifted-in bits); theorems quantify over
all admissible `c`, which covers every actual lane pairing.
-/

namespace Deblock

/-- Lane model of `pavgb`: unsigned byte average, rounding up. -/
def pavgb (a b : Nat) : Nat := (a + b + 1) / 2

/-- Lane model of `psubusb`: unsigned saturating subtract (`Nat` sub). -/
def psubusb (a b : Nat) : Nat := a - b

/-- Lane model of `paddusb`: unsigned saturating add. -/
def paddusb (a b : Nat) : Nat := min (a + b) 255

/-- Lane model of `psubb`: wrap-around byte subtract. -/
def psubb (a b : Nat) : Nat := (a + 256 - b) % 256

/-- Lane model of `paddb`: wrap-around byte add. -/
def paddb (a b : Nat) : Nat := (a + b) % 256

/-- Lane model of `pxor`. -/
def pxor (a b : Nat) : Nat := a ^^^ b

/-- Lane model of `pand`. -/
def pand (a b : Nat) : Nat := a &&& b

/-- Lane model of `por`. -/
def por (a b : Nat) : Nat := a ||| b

/-- Lane model of `pcmpeqb`: all-ones (255) when equal, else 0. -/
def pcmpeqb (a b : Nat) : Nat := if a = b then 255 else 0

/-- Byte reinterpreted as a signed 8-bit integer (for `pcmpgtb`). -/
def sbyte (a : Nat) : Int := if a < 128 then (a : Int) else (a : Int) - 256

/-- Lane model of `pcmpgtb`: signed byte compare, 255 when `a > b`. -/
def pcmpgtb (a b : Nat) : Nat := if sbyte b < sbyte a then 255 else 0

/-- Lane model of `pandn`: complement of the first operand ANDed with the
second (byte lanes, so the complement is xor with 255). -/
def pandn (a b : Nat) : Nat := (a ^^^ 255) &&& b

/-- Low-byte lane of `psrlw mm, 1` on packed bytes: the lane is shifted
right by one (division by 2) and receives the neighbouring high byte's
lowest bit `c` in its top position (`c = 0` for the high lane). -/
def psrlw1 (x c : Nat) : Nat := x / 2 + 128 * c

/-- Low-byte lane of `psrlw mm, 2` on packed bytes: the lane is shifted
right by two (division by 4) and receives the neighbouring high byte's
two lowest bits `c` in its top positions (`c = 0` for the high lane). -/
def psrlw2 (x c : Nat) : Nat := x / 4 + 64 * c

/-- The `DIFF_GT` macro: `psubusb` both ways, `por`, `psubusb` the
threshold.  The lane is nonzero exactly when `|a-b| > t`. -/
def diffGT (a b t : Nat) : Nat := por (psubusb b a) (psubusb a b) - t

/-- The `DIFF_GT2` macro: `psubusb` both ways, subtract the threshold
from each, `pcmpeqb`.  Despite the source comment, the resulting mask is
255 exactly when `|a-b| ≤ t` (both saturated differences reach 0). -/
def diffGT2 (a b t : Nat) : Nat := pcmpeqb (psubusb (psubusb a b) t) (psubusb (psubusb b a) t)

/-- The `LOAD_MASK` macro: ORs the three `DIFF_GT` lanes for
`|p0-q0| > alpha-1`, `|p1-p0| > beta-1`, `|q1-q0| > beta-1` and compares
the result with zero, giving the per-line eligibility mask (`a1`, `b1`
are the stored `alpha-1` / `beta-1` bytes after `packuswb` saturation). -/
def loadMask (p1 p0 q0 q1 a1 b1 : Nat) : Nat :=
  pcmpeqb (por (por (diffGT p0 q0 a1) (diffGT p1 p0 b1)) (diffGT q1 q0 b1)) 0

/-- The `LUMA_Q1` macro: computes `(p2 + ((p0+q0+1)>>1)) >> 1` via
`pavgb` with a parity fix-up, then clips it to `[p1-tc0, p1+tc0]` with
saturating bounds; the result is the new `p1` (written to memory). -/
def lumaQ1 (p1 p2 p0 q0 tc : Nat) : Nat :=
  let a := pavgb p0 q0
  let b := pavgb p2 a
  let e := pand (pxor a p2) 1
  let c := psubusb b e
  let lo := psubusb p1 tc
  let hi := paddusb tc p1
  min (max c lo) hi

/-- The `DEBLOCK_P0_Q0` macro: the saturating byte-average sequence that
computes `delta + 161` (comment in the source: `d+128+33`), splits it
into saturated positive and negative parts, clips each against the lane's
`tc` bound, and applies them to `p0`/`q0` with saturating adds and
subtracts.  Takes `m0..m3 = p1,p0,q0,q1` and `m7 = tc`; returns the new
`(p0, q0)`. -/
def deblockP0Q0 (p1 p0 q0 q1 tc : Nat) : Nat × Nat :=
  let e := pand (pxor p0 q0) 1
  let a1 := pavgb (pxor q1 255) p1
  let a2 := pavgb a1 3
  let d := pavgb (pxor p0 255) q0
  let a3 := pavgb a2 e
  let s := paddusb a3 d
  let neg := min (psubusb 161 s) tc
  let pos := min (psubusb s 161) tc
  (paddusb (psubusb p0 neg) pos, paddusb (psubusb q0 pos) neg)

/-! ## Byte-level helper lemmas -/

set_option maxRecDepth 2000 in
private theorem and255_fin : ∀ a : Fin 256, (a : Nat) &&& 255 = a := by decide

theorem and255 {a : Nat} (h : a < 256) : a &&& 255 = a := and255_fin ⟨a, h⟩

set_option maxRecDepth 2000 in
private theorem xor255_fin : ∀ a : Fin 256, (a : Nat) ^^^ 255 = 255 - a := by decide

theorem xor255 {a : Nat} (h : a < 256) : a ^^^ 255 = 255 - a := xor255_fin ⟨a, h⟩

/-- Parity of an xor is the parity of the sum. -/
theorem xor_and_one (a b : Nat) : (a ^^^ b) &&& 1 = (a + b) % 2 := by
  rw [Nat.and_xor_distrib_right, Nat.and_one_is_mod, Nat.and_one_is_mod]
  rcases Nat.mod_two_eq_zero_or_one a with h1 | h1 <;>
    rcases Nat.mod_two_eq_zero_or_one b with h2 | h2 <;>
    rw [h1, h2] <;> simp only [Nat.zero_xor, Nat.xor_zero, Nat.xor_self] <;> omega

theorem xor_lt_256 {a b : Nat} (ha : a < 256) (hb : b < 256) : a ^^^ b < 256 :=
  Nat.xor_lt_two_pow (n := 8) ha hb

/-- A bitwise OR of naturals is zero only when both operands are. -/
theorem or_zero_split {a b : Nat} (h : a ||| b = 0) : a = 0 ∧ b = 0 := by
  constructor <;>
  · apply Nat.eq_of_testBit_eq
    intro i
    have h2 := congrArg (fun x => Nat.testBit x i) h
    simp only [Nat.testBit_or, Nat.zero_testBit, Bool.or_eq_false_iff] at h2
    simp only [Nat.zero_testBit]
    tauto

/-- `diffGT` is zero exactly when the absolute difference is within the
threshold. -/
theorem diffGT_eq_zero_iff (a b t : Nat) : diffGT a b t = 0 ↔ max a b - min a b ≤ t := by
  unfold diffGT por psubusb
  rcases Nat.le_total a b with h | h
  · rw [Nat.sub_eq_zero_of_le h, Nat.or_zero]
    omega
  · rw [Nat.sub_eq_zero_of_le h, Nat.zero_or]
    omega

/-- `diffGT2` produces the all-ones mask exactly when the absolute
difference is within the threshold, and zero otherwise. -/
theorem diffGT2_eq (a b t : Nat) :
    diffGT2 a b t = if max a b - min a b ≤ t then 255 else 0 := by
  unfold diffGT2 pcmpeqb psubusb
  rcases Nat.lt_trichotomy a b with h | h | h <;> split <;> split <;> omega

/-- `loadMask` is 255 or 0, and is 255 exactly when all three sample
differences are within the stored thresholds. -/
theorem loadMask_eq (p1 p0 q0 q1 a1 b1 : Nat) :
    loadMask p1 p0 q0 q1 a1 b1 =
      if max p0 q0 - min p0 q0 ≤ a1 ∧ max p1 p0 - min p1 p0 ≤ b1 ∧
          max q1 q0 - min q1 q0 ≤ b1 then 255 else 0 := by
  unfold loadMask pcmpeqb por
  have h1 := diffGT_eq_zero_iff p0 q0 a1
  have h2 := diffGT_eq_zero_iff p1 p0 b1
  have h3 := diffGT_eq_zero_iff q1 q0 b1
  have hor : diffGT p0 q0 a1 ||| diffGT p1 p0 b1 ||| diffGT q1 q0 b1 = 0 ↔
      diffGT p0 q0 a1 = 0 ∧ diffGT p1 p0 b1 = 0 ∧ diffGT q1 q0 b1 = 0 := by
    constructor
    · intro h
      obtain ⟨h12, h3⟩ := or_zero_split h
      obtain ⟨ha, hb⟩ := or_zero_split h12
      exact ⟨ha, hb, h3⟩
    · rintro ⟨x, y, z⟩
      rw [x, y, z]
      rfl
  simp only [hor, h1, h2, h3]

/-! ## Scalar characterizations of the normal-filter macros -/

/-- `Clip1`: saturation of a sample value to `[0,255]` (spec glossary). -/
def Clip1 (x : Int) : Int := max 0 (min 255 x)

/-- Symmetric clip of `x` to `[lo, hi]` (the spec's `clip`). -/
def clip3 (lo hi x : Int) : Int := max lo (min hi x)

/-- The spec's center delta for the normal filter: the arithmetic
(floor) shift of `(q0-p0)*4 + (p1-q1) + 4` by 3, clipped to `±tc`. -/
def deltaSpec (p1 p0 q0 q1 tc : Nat) : Int :=
  clip3 (-(tc : Int)) (tc : Int) ((4 * ((q0 : Int) - (p0 : Int)) + ((p1 : Int) - (q1 : Int)) + 4) / 8)

set_option maxHeartbeats 1600000 in
/-- The `DEBLOCK_P0_Q0` saturating-average sequence matches the scalar
equations `p0' = Clip1(p0 + delta)` and `q0' = Clip1(q0 - delta)`
bit-exactly, provided the clip bound `tc` does not exceed `94 = 255-161`
(beyond that the positive part of the delta saturates in the byte
pipeline). -/
theorem deblockP0Q0_eq (p1 p0 q0 q1 tc : Nat) (hp1 : p1 ≤ 255) (hp0 : p0 ≤ 255)
    (hq0 : q0 ≤ 255) (hq1 : q1 ≤ 255) (htc : tc ≤ 94) :
    ((deblockP0Q0 p1 p0 q0 q1 tc).1 : Int) = Clip1 ((p0 : Int) + deltaSpec p1 p0 q0 q1 tc) ∧
    ((deblockP0Q0 p1 p0 q0 q1 tc).2 : Int) = Clip1 ((q0 : Int) - deltaSpec p1 p0 q0 q1 tc) := by
  simp only [deblockP0Q0, pavgb, psubusb, paddusb, pand, pxor, Clip1, clip3, deltaSpec]
  rw [xor_and_one, xor255 (show q1 < 256 by omega), xor255 (show p0 < 256 by omega)]
  constructor <;> omega

/-- The `LUMA_Q1` sequence matches the scalar equation
`p1' = p1 + clip((p2 + ((p0+q0+1)>>1) - 2*p1) >> 1, -tc0, tc0)`. -/
theorem lumaQ1_eq (p1 p2 p0 q0 tc : Nat) (hp1 : p1 ≤ 255) (hp2 : p2 ≤ 255)
    (hp0 : p0 ≤ 255) (hq0 : q0 ≤ 255) (htc : tc ≤ 255) :
    ((lumaQ1 p1 p2 p0 q0 tc : Nat) : Int) =
      (p1 : Int) + clip3 (-(tc : Int)) (tc : Int)
        (((p2 : Int) + (((p0 : Int) + (q0 : Int) + 1) / 2) - 2 * (p1 : Int)) / 2) := by
  simp only [lumaQ1, pavgb, psubusb, paddusb, pand, pxor, clip3]
  rw [xor_and_one]
  omega

/-- With a zero clip bound `LUMA_Q1` returns `p1` unchanged. -/
theorem lumaQ1_zero (p1 p2 p0 q0 : Nat) (hp1 : p1 ≤ 255) :
    lumaQ1 p1 p2 p0 q0 0 = p1 := by
  simp only [lumaQ1, pavgb, psubusb, paddusb, pand, pxor]
  omega

/-- With a zero clip bound `DEBLOCK_P0_Q0` returns `p0, q0` unchanged. -/
theorem deblockP0Q0_zero (p1 p0 q0 q1 : Nat) (hp0 : p0 ≤ 255) (hq0 : q0 ≤ 255) :
    deblockP0Q0 p1 p0 q0 q1 0 = (p0, q0) := by
  simp only [deblockP0Q0, pavgb, psubusb, paddusb, pand, pxor, Prod.mk.injEq]
  omega

/-! ## Luma normal filter entry points (per-lane semantics) -/

/-- Per-lane semantics of `deblock_v_luma_8` (x86-64 `DEBLOCK_LUMA`):
`alpha`/`beta` are decremented on entry (the stored byte saturates at 0,
exactly as `packuswb` does to a negative word), the lane's `tc` byte is
compared against the sentinel `0xFF` with `pcmpeqb`/`pandn`, the `ap`/`aq`
softness masks are folded into the clip bounds with `psubb`/`pand`, and
`LUMA_Q1` / `DEBLOCK_P0_Q0` produce the outputs `(p1', p0', q0', q1')`. -/
def deblockVLumaLine (p2 p1 p0 q0 q1 q2 alpha beta tc : Nat) : Nat × Nat × Nat × Nat :=
  let a1 := alpha - 1
  let b1 := beta - 1
  let mask := loadMask p1 p0 q0 q1 a1 b1
  let m9 := pandn (pcmpeqb tc 255) mask
  let tc8 := pand tc m9
  let ap := pand (diffGT2 p0 p2 b1) m9
  let tcp := pand ap tc8
  let p1n := lumaQ1 p1 p2 p0 q0 tcp
  let aq := pand (diffGT2 q0 q2 b1) m9
  let tcq := pand tc8 aq
  let tC := psubb (psubb tc8 ap) aq
  let q1n := lumaQ1 q1 q2 p0 q0 tcq
  let pq := deblockP0Q0 p1 p0 q0 q1 tC
  (p1n, pq.1, pq.2, q1n)

/-- Per-lane semantics of `deblock_v8_luma_8` (x86-32 `DEBLOCK_LUMA`):
identical to the 64-bit path except that the per-lane eligibility uses
`pcmpgtb tc, -1` (signed `tc ≥ 0`) instead of the `pcmpeqb`-with-sentinel
test, and the `q1` clip bound is taken from the unmasked `tc` bytes. -/
def deblockV8LumaLine (p2 p1 p0 q0 q1 q2 alpha beta tc : Nat) : Nat × Nat × Nat × Nat :=
  let a1 := alpha - 1
  let b1 := beta - 1
  let mask := loadMask p1 p0 q0 q1 a1 b1
  let m4m := pand (pcmpgtb tc 255) mask
  let ap := pand (diffGT2 p0 p2 b1) m4m
  let tc8 := pand m4m tc
  let tcp := pand ap tc8
  let p1n := lumaQ1 p1 p2 p0 q0 tcp
  let aq := pand (diffGT2 q0 q2 b1) m4m
  let tC := psubb (psubb tc8 ap) aq
  let tcq := pand tc aq
  let q1n := lumaQ1 q1 q2 p0 q0 tcq
  let pq := deblockP0Q0 p1 p0 q0 q1 tC
  (p1n, pq.1, pq.2, q1n)

/-! ## Chroma filters (per-lane semantics) -/

/-- Per-lane semantics of `ff_chroma_inter_body_mmxext`: `LOAD_MASK`,
then the caller's `tc` byte is ANDed with the mask and passed directly to
`DEBLOCK_P0_Q0` as the clip bound; returns the new `(p0, q0)`. -/
def chromaInterLine (p1 p0 q0 q1 alpha beta tc : Nat) : Nat × Nat :=
  let mask := loadMask p1 p0 q0 q1 (alpha - 1) (beta - 1)
  deblockP0Q0 p1 p0 q0 q1 (pand mask tc)

/-- The `CHROMA_INTRA_P0` macro: `dst = avg(p1, avg(p0,q1) - ((p0^q1)&1))`,
which equals `(p0 + q1 + 2*p1 + 2) >> 2`. -/
def chromaIntraP0 (p0 p1 q1 : Nat) : Nat :=
  pavgb (psubusb (pavgb p0 q1) (pand (pxor p0 q1) 1)) p1

/-- Per-lane semantics of `ff_chroma_intra_body_mmxext`: `LOAD_MASK`,
`CHROMA_INTRA_P0` on both sides, and the mask applied by the
`psubb`/`pand`/`paddb` select; returns the new `(p0, q0)`. -/
def chromaIntraLine (p1 p0 q0 q1 alpha beta : Nat) : Nat × Nat :=
  let mask := loadMask p1 p0 q0 q1 (alpha - 1) (beta - 1)
  let p0n := chromaIntraP0 p0 p1 q1
  let q0n := chromaIntraP0 q0 q1 p1
  (paddb (pand (psubb p0n p0) mask) p0, paddb (pand (psubb q0n q0) mask) q0)

/-- The byte-select identity behind the chroma mask application:
`paddb ((psubb a b) &&& 255) b = a` for bytes. -/
theorem psubb_paddb_select255 {a b : Nat} (ha : a < 256) (hb : b < 256) :
    paddb (pand (psubb a b) 255) b = a := by
  rw [pand, and255 (show psubb a b < 256 from Nat.mod_lt _ (by omega))]
  unfold psubb paddb
  omega

/-- The byte-select identity with a zero mask: the original value is
returned. -/
theorem psubb_paddb_select0 {a b : Nat} (hb : b < 256) :
    paddb (pand (psubb a b) 0) b = b := by
  rw [pand, Nat.and_zero]
  unfold paddb
  omega

/-- `CHROMA_INTRA_P0` computes `(2*p1 + p0 + q1 + 2) >> 2`. -/
theorem chromaIntraP0_eq (p0 p1 q1 : Nat) (hp0 : p0 ≤ 255) (hp1 : p1 ≤ 255)
    (hq1 : q1 ≤ 255) : chromaIntraP0 p0 p1 q1 = (2 * p1 + p0 + q1 + 2) / 4 := by
  simp only [chromaIntraP0, pavgb, psubusb, pand, pxor]
  rw [xor_and_one]
  omega

/-! ## Scalar characterization of the luma normal line -/

/-- The spec's `p1` update for the luma normal filter:
`p1 + clip((p2 + ((p0+q0+1)>>1) - 2*p1) >> 1, -tc0, tc0)`. -/
def lumaP1Spec (p1 p2 p0 q0 tc : Nat) : Int :=
  (p1 : Int) + clip3 (-(tc : Int)) (tc : Int)
    (((p2 : Int) + (((p0 : Int) + (q0 : Int) + 1) / 2) - 2 * (p1 : Int)) / 2)

theorem pand_zero_left (a : Nat) : pand 0 a = 0 := Nat.zero_and a

theorem pand_zero_right (a : Nat) : pand a 0 = 0 := Nat.and_zero a

theorem pand_255_left {a : Nat} (h : a < 256) : pand 255 a = a := by
  rw [pand, Nat.and_comm]; exact and255 h

theorem pand_255_right {a : Nat} (h : a < 256) : pand a 255 = a := and255 h

set_option maxHeartbeats 1600000 in
/-- Scalar characterization of the x86-64 luma normal filter lane: when
the `LOAD_MASK` eligibility mask passes and the lane's `tc0` byte is at
most 92 (in particular not the sentinel), the four outputs are exactly
the spec's equations, with `tC = tc0 + ap + aq` and the `p1`/`q1` updates
gated by the `ap`/`aq` flags. -/
theorem deblockVLumaLine_eq (p2 p1 p0 q0 q1 q2 alpha beta tc : Nat)
    (hp2 : p2 ≤ 255) (hp1 : p1 ≤ 255) (hp0 : p0 ≤ 255) (hq0 : q0 ≤ 255)
    (hq1 : q1 ≤ 255) (hq2 : q2 ≤ 255) (htc : tc ≤ 92)
    (hmask : loadMask p1 p0 q0 q1 (alpha - 1) (beta - 1) = 255) :
    (((deblockVLumaLine p2 p1 p0 q0 q1 q2 alpha beta tc).1 : Int) =
       (if max p0 p2 - min p0 p2 ≤ beta - 1 then lumaP1Spec p1 p2 p0 q0 tc else (p1 : Int))) ∧
    (((deblockVLumaLine p2 p1 p0 q0 q1 q2 alpha beta tc).2.1 : Int) =
       Clip1 ((p0 : Int) + deltaSpec p1 p0 q0 q1
         (tc + (if max p0 p2 - min p0 p2 ≤ beta - 1 then 1 else 0)
             + (if max q0 q2 - min q0 q2 ≤ beta - 1 then 1 else 0)))) ∧
    (((deblockVLumaLine p2 p1 p0 q0 q1 q2 alpha beta tc).2.2.1 : Int) =
       Clip1 ((q0 : Int) - deltaSpec p1 p0 q0 q1
         (tc + (if max p0 p2 - min p0 p2 ≤ beta - 1 then 1 else 0)
             + (if max q0 q2 - min q0 q2 ≤ beta - 1 then 1 else 0)))) ∧
    (((deblockVLumaLine p2 p1 p0 q0 q1 q2 alpha beta tc).2.2.2 : Int) =
       (if max q0 q2 - min q0 q2 ≤ beta - 1 then lumaP1Spec q1 q2 p0 q0 tc else (q1 : Int))) := by
  have hne : ¬ tc = 255 := by omega
  have h9 : pandn (pcmpeqb tc 255) (loadMask p1 p0 q0 q1 (alpha - 1) (beta - 1)) = 255 := by
    rw [hmask, pcmpeqb, if_neg hne, pandn, Nat.zero_xor, Nat.and_self]
  simp only [deblockVLumaLine, h9, diffGT2_eq, pand_255_right (show tc < 256 by omega)]
  by_cases hap : max p0 p2 - min p0 p2 ≤ beta - 1 <;>
    by_cases haq : max q0 q2 - min q0 q2 ≤ beta - 1
  · simp only [if_pos hap, if_pos haq,
      pand_255_left (show tc < 256 by omega), pand_255_right (show tc < 256 by omega),
      pand_255_right (show (255 : Nat) < 256 by omega)]
    rw [show psubb (psubb tc 255) 255 = tc + 2 by unfold psubb; omega]
    rw [lumaQ1_eq p1 p2 p0 q0 tc hp1 hp2 hp0 hq0 (by omega),
        lumaQ1_eq q1 q2 p0 q0 tc hq1 hq2 hp0 hq0 (by omega)]
    have hd := deblockP0Q0_eq p1 p0 q0 q1 (tc + 2) hp1 hp0 hq0 hq1 (by omega)
    exact ⟨rfl, hd.1, hd.2, rfl⟩
  · simp only [if_pos hap, if_neg haq,
      pand_255_left (show tc < 256 by omega), pand_255_right (show tc < 256 by omega),
      pand_255_right (show (255 : Nat) < 256 by omega), pand_zero_left, pand_zero_right]
    rw [show psubb (psubb tc 255) 0 = tc + 1 by unfold psubb; omega]
    rw [lumaQ1_eq p1 p2 p0 q0 tc hp1 hp2 hp0 hq0 (by omega),
        lumaQ1_zero q1 q2 p0 q0 hq1]
    have hd := deblockP0Q0_eq p1 p0 q0 q1 (tc + 1) hp1 hp0 hq0 hq1 (by omega)
    exact ⟨rfl, hd.1, hd.2, rfl⟩
  · simp only [if_neg hap, if_pos haq,
      pand_255_left (show tc < 256 by omega), pand_255_right (show tc < 256 by omega),
      pand_255_right (show (255 : Nat) < 256 by omega), pand_zero_left, pand_zero_right]
    rw [show psubb (psubb tc 0) 255 = tc + 1 by unfold psubb; omega]
    rw [lumaQ1_zero p1 p2 p0 q0 hp1,
        lumaQ1_eq q1 q2 p0 q0 tc hq1 hq2 hp0 hq0 (by omega)]
    have hd := deblockP0Q0_eq p1 p0 q0 q1 (tc + 1) hp1 hp0 hq0 hq1 (by omega)
    exact ⟨rfl, hd.1, hd.2, rfl⟩
  · simp only [if_neg hap, if_neg haq, pand_zero_left, pand_zero_right]
    rw [show psubb (psubb tc 0) 0 = tc by unfold psubb; omega]
    rw [lumaQ1_zero p1 p2 p0 q0 hp1, lumaQ1_zero q1 q2 p0 q0 hq1]
    have hd := deblockP0Q0_eq p1 p0 q0 q1 tc hp1 hp0 hq0 hq1 (by omega)
    exact ⟨rfl, hd.1, hd.2, rfl⟩

/-! ## Luma strong (intra) filter -/

/-- The recurring rounding fix-up of `LUMA_INTRA_P012` for a `>> 2`
value: `psrlw mm,1` of the wrapped sum, `pavgb` with zero, and the parity
of the xor with the approximate average is subtracted from it. -/
def fix1 (t x c : Nat) : Nat := psubb t (pand (pxor (pavgb (psrlw1 x c) 0) t) 1)

/-- The recurring rounding fix-up of `LUMA_INTRA_P012` for a `>> 3`
value: as `fix1` but with `psrlw mm,2`. -/
def fix2 (t x c : Nat) : Nat := psubb t (pand (pxor (pavgb (psrlw2 x c) 0) t) 1)

/-- The `LUMA_INTRA_P012` macro, one lane, p side (the `q` side is the
same macro after `LUMA_INTRA_SWAP_PQ`).  Computes the three-sample
updates through `pavgb`/`paddb` chains with `psrlw`-based parity
corrections (`c1, c2, c3` are the word-shift contamination bits), then
selects `p0' / p1' / p2'` against the original samples with the
`mask0` / `mask1p` byte masks.  Returns `(p0', p1', p2')`. -/
def lumaIntraP012 (p3 p2 p1 p0 q0 q1 mask0 mask1p c1 c2 c3 : Nat) : Nat × Nat × Nat :=
  let t0a := pavgb (pavgb p2 p1) (pavgb p0 q0)
  let t5 := pavgb p0 q0
  let s4 := paddb (paddb p2 p1) (paddb p0 q0)
  let p1e := fix1 t0a s4 c1
  let dpq := psubb p2 q1
  let s5 := psubb (paddb s4 s4) dpq
  let t1a := pavgb (pavgb (psubb (pavgb p2 q1) (pand dpq 1)) p1) t5
  let p0a := fix2 t1a s5 c2
  let p0b := pavgb (psubb (pavgb p0 q1) (pand (pxor p0 q1) 1)) p1
  let p0n := pxor (pxor (pand (pxor p0a p0b) mask1p) (pand (pxor p0b p0) mask0)) p0
  let w1 := pavgb (pavgb p3 p2) p1e
  let s6 := paddb (paddb (paddb p3 p2) (paddb p3 p2)) s4
  let p2e := fix2 w1 s6 c3
  let p1n := pxor (pand (pxor p1e p1) mask1p) p1
  let p2n := pxor (pand (pxor p2e p2) mask1p) p2
  (p0n, p1n, p2n)

/-- Per-lane semantics of `deblock_v_luma_intra_8` (`DEBLOCK_LUMA_INTRA`):
explicit early exit when `alpha-1 < 0` or `beta-1 < 0` (the `jl .end`
instructions), `LOAD_MASK`, the stricter `|p0-q0| ≤ alpha/4+1` gate, the
`|p2-p0| / |q2-q0|` softness masks, and `LUMA_INTRA_P012` on both sides
(the q side via `LUMA_INTRA_SWAP_PQ`).  `cp1..cq3` are the `psrlw`
contamination bits of the six word shifts.  Returns
`(p2', p1', p0', q0', q1', q2')`. -/
def deblockVLumaIntraLine (p3 p2 p1 p0 q0 q1 q2 q3 alpha beta : Nat)
    (cp1 cp2 cp3 cq1 cq2 cq3 : Nat) : Nat × Nat × Nat × Nat × Nat × Nat :=
  if alpha = 0 ∨ beta = 0 then (p2, p1, p0, q0, q1, q2) else
  let a1 := alpha - 1
  let b1 := beta - 1
  let mask0 := loadMask p1 p0 q0 q1 a1 b1
  let t5 := pavgb (pavgb a1 0) 1
  let t0 := pand (diffGT2 p0 q0 t5) mask0
  let mask1q := pand (diffGT2 q0 q2 b1) t0
  let mask1p := pand (diffGT2 p0 p2 b1) t0
  let P := lumaIntraP012 p3 p2 p1 p0 q0 q1 mask0 mask1p cp1 cp2 cp3
  let Q := lumaIntraP012 q3 q2 q1 q0 p0 p1 mask0 mask1q cq1 cq2 cq3
  (P.2.2, P.2.1, P.1, Q.1, Q.2.1, Q.2.2)

/-! ## Exactness of the intra rounding chains -/

/-- `fix1` recovers the exact `(S+2) >> 2` from an approximation that is
off by at most one, using only `S mod 256` and any contamination bit. -/
theorem fix1_exact (t S c : Nat) (ht : t ≤ 255) (hc : c ≤ 1) (hS : S ≤ 1020)
    (hlo : (S + 2) / 4 ≤ t) (hhi : t ≤ (S + 2) / 4 + 1) :
    fix1 t (S % 256) c = (S + 2) / 4 := by
  unfold fix1 psrlw1 pavgb pand pxor psubb
  rw [xor_and_one]
  omega

/-- `fix2` recovers the exact `(S+4) >> 3` from an approximation that is
off by at most one, using only `S mod 256` and any contamination bits. -/
theorem fix2_exact (t S c : Nat) (ht : t ≤ 255) (hc : c ≤ 3) (hS : S ≤ 2040)
    (hlo : (S + 4) / 8 ≤ t) (hhi : t ≤ (S + 4) / 8 + 1) :
    fix2 t (S % 256) c = (S + 4) / 8 := by
  unfold fix2 psrlw2 pavgb pand pxor psubb
  rw [xor_and_one]
  omega

/-- The `p0'b` chain of `LUMA_INTRA_P012` computes
`(2*p1+p0+q1+2) >> 2` exactly; note the operand is `q1`, not the `q0` of
the source's comment. -/
theorem intraP0bExact (p0 p1 q1 : Nat) (hp0 : p0 ≤ 255) (hp1 : p1 ≤ 255)
    (hq1 : q1 ≤ 255) :
    pavgb (psubb (pavgb p0 q1) (pand (pxor p0 q1) 1)) p1 = (2 * p1 + p0 + q1 + 2) / 4 := by
  simp only [pavgb, psubb, pand, pxor]
  rw [xor_and_one]
  omega

/-! ## Byte select identities for the intra masks -/

theorem sel1_255 {a b : Nat} (ha : a < 256) (hb : b < 256) :
    pxor (pand (pxor a b) 255) b = a := by
  unfold pand pxor
  rw [and255 (xor_lt_256 ha hb), Nat.xor_assoc, Nat.xor_self, Nat.xor_zero]

theorem sel1_0 (a b : Nat) : pxor (pand (pxor a b) 0) b = b := by
  unfold pand pxor
  rw [Nat.and_zero, Nat.zero_xor]

theorem sel2_255 {a b c : Nat} (ha : a < 256) (hb : b < 256) (hc : c < 256) :
    pxor (pxor (pand (pxor a b) 255) (pand (pxor b c) 255)) c = a := by
  unfold pand pxor
  rw [and255 (xor_lt_256 ha hb), and255 (xor_lt_256 hb hc)]
  have h : (a ^^^ b) ^^^ (b ^^^ c) = a ^^^ c := by
    rw [Nat.xor_assoc, ← Nat.xor_assoc b b c, Nat.xor_self, Nat.zero_xor]
  rw [h, Nat.xor_assoc, Nat.xor_self, Nat.xor_zero]

theorem sel2_weak {b c : Nat} (hb : b < 256) (hc : c < 256) (x : Nat) :
    pxor (pxor (pand (pxor x b) 0) (pand (pxor b c) 255)) c = b := by
  unfold pand pxor
  rw [Nat.and_zero, and255 (xor_lt_256 hb hc), Nat.zero_xor, Nat.xor_assoc,
    Nat.xor_self, Nat.xor_zero]

theorem sel2_0 (x y c : Nat) : pxor (pxor (pand (pxor x y) 0) (pand (pxor y c) 0)) c = c := by
  unfold pand pxor
  rw [Nat.and_zero, Nat.and_zero, Nat.xor_self, Nat.zero_xor]

/-- The wrapped four-sample sum register `t2` of `LUMA_INTRA_P012`. -/
theorem s4_eq (p2 p1 p0 q0 : Nat) :
    paddb (paddb p2 p1) (paddb p0 q0) = (p2 + p1 + p0 + q0) % 256 := by
  unfold paddb; omega

/-- The `p1'` value: `fix1` of the average chain recovers
`(p2+p1+p0+q0+2) >> 2` exactly. -/
theorem p1e_eq (p2 p1 p0 q0 c1 : Nat) (hp2 : p2 ≤ 255) (hp1 : p1 ≤ 255)
    (hp0 : p0 ≤ 255) (hq0 : q0 ≤ 255) (hc1 : c1 ≤ 1) :
    fix1 (pavgb (pavgb p2 p1) (pavgb p0 q0)) ((p2 + p1 + p0 + q0) % 256) c1
      = (p2 + p1 + p0 + q0 + 2) / 4 := by
  refine fix1_exact _ _ _ ?_ hc1 (by omega) ?_ ?_ <;> (unfold pavgb; omega)

/-- The `(p2 + q1) >> 1` sub-chain (`pavgb` with the parity of the
wrapped difference subtracted). -/
theorem flhalf_eq (p2 q1 : Nat) (hp2 : p2 ≤ 255) (hq1 : q1 ≤ 255) :
    psubb (pavgb p2 q1) (pand (psubb p2 q1) 1) = (p2 + q1) / 2 := by
  have hpar : (p2 + 256 - q1) % 256 % 2 = (p2 + q1) % 2 := by omega
  unfold psubb pavgb pand
  rw [Nat.and_one_is_mod, hpar]
  omega

/-- The wrapped five-sample sum register `t3` of `LUMA_INTRA_P012`. -/
theorem s5_eq (p2 p1 p0 q0 q1 : Nat) (hp2 : p2 ≤ 255) (hq1 : q1 ≤ 255) :
    psubb (paddb ((p2 + p1 + p0 + q0) % 256) ((p2 + p1 + p0 + q0) % 256)) (psubb p2 q1)
      = (p2 + 2 * p1 + 2 * p0 + 2 * q0 + q1) % 256 := by
  unfold paddb psubb; omega

/-- The `p0'a` value: `fix2` of the average chain recovers
`(p2+2*p1+2*p0+2*q0+q1+4) >> 3` exactly. -/
theorem p0a_eq (p2 p1 p0 q0 q1 c2 : Nat) (hp2 : p2 ≤ 255) (hp1 : p1 ≤ 255)
    (hp0 : p0 ≤ 255) (hq0 : q0 ≤ 255) (hq1 : q1 ≤ 255) (hc2 : c2 ≤ 3) :
    fix2 (pavgb (pavgb ((p2 + q1) / 2) p1) (pavgb p0 q0))
      ((p2 + 2 * p1 + 2 * p0 + 2 * q0 + q1) % 256) c2
      = (p2 + 2 * p1 + 2 * p0 + 2 * q0 + q1 + 4) / 8 := by
  refine fix2_exact _ _ _ ?_ hc2 (by omega) ?_ ?_ <;> (unfold pavgb; omega)

/-- The wrapped `2*p3+3*p2+p1+p0+q0` sum register of `LUMA_INTRA_P012`. -/
theorem s6_eq (p3 p2 p1 p0 q0 : Nat) :
    paddb (paddb (paddb p3 p2) (paddb p3 p2)) ((p2 + p1 + p0 + q0) % 256)
      = (2 * p3 + 3 * p2 + p1 + p0 + q0) % 256 := by
  unfold paddb; omega

/-- The `p2'` value: `fix2` of the average chain (with the exact `p1'`
already substituted) recovers `(2*p3+3*p2+p1+p0+q0+4) >> 3` exactly. -/
theorem p2e_eq (p3 p2 p1 p0 q0 c3 : Nat) (hp3 : p3 ≤ 255) (hp2 : p2 ≤ 255)
    (hp1 : p1 ≤ 255) (hp0 : p0 ≤ 255) (hq0 : q0 ≤ 255) (hc3 : c3 ≤ 3) :
    fix2 (pavgb (pavgb p3 p2) ((p2 + p1 + p0 + q0 + 2) / 4))
      ((2 * p3 + 3 * p2 + p1 + p0 + q0) % 256) c3
      = (2 * p3 + 3 * p2 + p1 + p0 + q0 + 4) / 8 := by
  refine fix2_exact _ _ _ ?_ hc3 (by omega) ?_ ?_ <;> (unfold pavgb; omega)

set_option maxHeartbeats 800000 in
/-- Characterization of `LUMA_INTRA_P012` for the three mask situations
that can arise (`mask1p` is always contained in `mask0`): with both masks
set the exact three-sample updates are produced; with only `mask0` set
only `p0` changes, to `(2*p1+p0+q1+2)>>2`; with neither mask set nothing
changes. -/
theorem lumaIntraP012_eq (p3 p2 p1 p0 q0 q1 c1 c2 c3 : Nat)
    (hp3 : p3 ≤ 255) (hp2 : p2 ≤ 255) (hp1 : p1 ≤ 255) (hp0 : p0 ≤ 255)
    (hq0 : q0 ≤ 255) (hq1 : q1 ≤ 255) (hc1 : c1 ≤ 1) (hc2 : c2 ≤ 3) (hc3 : c3 ≤ 3) :
    (lumaIntraP012 p3 p2 p1 p0 q0 q1 255 255 c1 c2 c3 =
       ((p2 + 2 * p1 + 2 * p0 + 2 * q0 + q1 + 4) / 8,
        (p2 + p1 + p0 + q0 + 2) / 4,
        (2 * p3 + 3 * p2 + p1 + p0 + q0 + 4) / 8)) ∧
    (lumaIntraP012 p3 p2 p1 p0 q0 q1 255 0 c1 c2 c3 =
       ((2 * p1 + p0 + q1 + 2) / 4, p1, p2)) ∧
    (lumaIntraP012 p3 p2 p1 p0 q0 q1 0 0 c1 c2 c3 = (p0, p1, p2)) := by
  refine ⟨?_, ?_, ?_⟩ <;>
  · simp only [lumaIntraP012, s4_eq p2 p1 p0 q0,
      p1e_eq p2 p1 p0 q0 c1 hp2 hp1 hp0 hq0 hc1,
      flhalf_eq p2 q1 hp2 hq1,
      s5_eq p2 p1 p0 q0 q1 hp2 hq1,
      p0a_eq p2 p1 p0 q0 q1 c2 hp2 hp1 hp0 hq0 hq1 hc2,
      intraP0bExact p0 p1 q1 hp0 hp1 hq1,
      s6_eq p3 p2 p1 p0 q0,
      p2e_eq p3 p2 p1 p0 q0 c3 hp3 hp2 hp1 hp0 hq0 hc3]
    first
      | rw [sel2_255 (by omega) (by omega) (by omega), sel1_255 (by omega) (by omega),
          sel1_255 (by omega) (by omega)]
      | rw [sel2_weak (by omega) (by omega), sel1_0, sel1_0]
      | rw [sel2_0, sel1_0, sel1_0]

/-- The spec's `filterEdge` predicate:
`|p0-q0| < alpha` and `|p1-p0| < beta` and `|q1-q0| < beta`. -/
abbrev filterEdgeSpec (p1 p0 q0 q1 alpha beta : Nat) : Prop :=
  (((p0 : Int) - (q0 : Int)).natAbs < alpha) ∧
  (((p1 : Int) - (p0 : Int)).natAbs < beta) ∧
  (((q1 : Int) - (q0 : Int)).natAbs < beta)

/-- The strong (intra) filter's additional proximity gate:
`|p0-q0| < (alpha>>2)+2`. -/
abbrev strongGateSpec (p0 q0 alpha : Nat) : Prop :=
  ((p0 : Int) - (q0 : Int)).natAbs < alpha / 4 + 2

/-- The boundary-softness flag `ap = |p2-p0| < beta` (resp. `aq`). -/
abbrev apSpec (p2 p0 beta : Nat) : Prop :=
  ((p2 : Int) - (p0 : Int)).natAbs < beta

set_option maxHeartbeats 800000 in
/-- Scalar characterization of the luma strong (intra) filter lane: the
three-sample p-side update is applied exactly when `filterEdge`, the
strong gate and `ap` all hold; with `filterEdge` alone only
`p0' = (2*p1+p0+q1+2)>>2` is applied; without `filterEdge` nothing
changes; the q side is symmetric. -/
theorem deblockVLumaIntraLine_eq (p3 p2 p1 p0 q0 q1 q2 q3 alpha beta : Nat)
    (cp1 cp2 cp3 cq1 cq2 cq3 : Nat)
    (hp3 : p3 ≤ 255) (hp2 : p2 ≤ 255) (hp1 : p1 ≤ 255) (hp0 : p0 ≤ 255)
    (hq0 : q0 ≤ 255) (hq1 : q1 ≤ 255) (hq2 : q2 ≤ 255) (hq3 : q3 ≤ 255)
    (ha1 : 1 ≤ alpha) (ha2 : alpha ≤ 255) (hb1 : 1 ≤ beta) (hb2 : beta ≤ 255)
    (hcp1 : cp1 ≤ 1) (hcp2 : cp2 ≤ 3) (hcp3 : cp3 ≤ 3)
    (hcq1 : cq1 ≤ 1) (hcq2 : cq2 ≤ 3) (hcq3 : cq3 ≤ 3) :
    (¬ filterEdgeSpec p1 p0 q0 q1 alpha beta →
       deblockVLumaIntraLine p3 p2 p1 p0 q0 q1 q2 q3 alpha beta cp1 cp2 cp3 cq1 cq2 cq3
         = (p2, p1, p0, q0, q1, q2)) ∧
    (filterEdgeSpec p1 p0 q0 q1 alpha beta → strongGateSpec p0 q0 alpha → apSpec p2 p0 beta →
      ((deblockVLumaIntraLine p3 p2 p1 p0 q0 q1 q2 q3 alpha beta cp1 cp2 cp3 cq1 cq2 cq3).1
          = (2 * p3 + 3 * p2 + p1 + p0 + q0 + 4) / 8 ∧
       (deblockVLumaIntraLine p3 p2 p1 p0 q0 q1 q2 q3 alpha beta cp1 cp2 cp3 cq1 cq2 cq3).2.1
          = (p2 + p1 + p0 + q0 + 2) / 4 ∧
       (deblockVLumaIntraLine p3 p2 p1 p0 q0 q1 q2 q3 alpha beta cp1 cp2 cp3 cq1 cq2 cq3).2.2.1
          = (p2 + 2 * p1 + 2 * p0 + 2 * q0 + q1 + 4) / 8)) ∧
    (filterEdgeSpec p1 p0 q0 q1 alpha beta →
      ¬ (strongGateSpec p0 q0 alpha ∧ apSpec p2 p0 beta) →
      ((deblockVLumaIntraLine p3 p2 p1 p0 q0 q1 q2 q3 alpha beta cp1 cp2 cp3 cq1 cq2 cq3).1
          = p2 ∧
       (deblockVLumaIntraLine p3 p2 p1 p0 q0 q1 q2 q3 alpha beta cp1 cp2 cp3 cq1 cq2 cq3).2.1
          = p1 ∧
       (deblockVLumaIntraLine p3 p2 p1 p0 q0 q1 q2 q3 alpha beta cp1 cp2 cp3 cq1 cq2 cq3).2.2.1
          = (2 * p1 + p0 + q1 + 2) / 4)) ∧
    (filterEdgeSpec p1 p0 q0 q1 alpha beta → strongGateSpec p0 q0 alpha → apSpec q2 q0 beta →
      ((deblockVLumaIntraLine p3 p2 p1 p0 q0 q1 q2 q3 alpha beta cp1 cp2 cp3 cq1 cq2 cq3).2.2.2.1
          = (q2 + 2 * q1 + 2 * q0 + 2 * p0 + p1 + 4) / 8 ∧
       (deblockVLumaIntraLine p3 p2 p1 p0 q0 q1 q2 q3 alpha beta cp1 cp2 cp3 cq1 cq2 cq3).2.2.2.2.1
          = (q2 + q1 + q0 + p0 + 2) / 4 ∧
       (deblockVLumaIntraLine p3 p2 p1 p0 q0 q1 q2 q3 alpha beta cp1 cp2 cp3 cq1 cq2 cq3).2.2.2.2.2
          = (2 * q3 + 3 * q2 + q1 + q0 + p0 + 4) / 8)) ∧
    (filterEdgeSpec p1 p0 q0 q1 alpha beta →
      ¬ (strongGateSpec p0 q0 alpha ∧ apSpec q2 q0 beta) →
      ((deblockVLumaIntraLine p3 p2 p1 p0 q0 q1 q2 q3 alpha beta cp1 cp2 cp3 cq1 cq2 cq3).2.2.2.1
          = (2 * q1 + q0 + p1 + 2) / 4 ∧
       (deblockVLumaIntraLine p3 p2 p1 p0 q0 q1 q2 q3 alpha beta cp1 cp2 cp3 cq1 cq2 cq3).2.2.2.2.1
          = q1 ∧
       (deblockVLumaIntraLine p3 p2 p1 p0 q0 q1 q2 q3 alpha beta cp1 cp2 cp3 cq1 cq2 cq3).2.2.2.2.2
          = q2)) := by
  have hnz : ¬ (alpha = 0 ∨ beta = 0) := by omega
  have hth : pavgb (pavgb (alpha - 1) 0) 1 = alpha / 4 + 1 := by unfold pavgb; omega
  have hP := lumaIntraP012_eq p3 p2 p1 p0 q0 q1 cp1 cp2 cp3 hp3 hp2 hp1 hp0 hq0 hq1 hcp1 hcp2 hcp3
  have hQ := lumaIntraP012_eq q3 q2 q1 q0 p0 p1 cq1 cq2 cq3 hq3 hq2 hq1 hq0 hp0 hp1 hcq1 hcq2 hcq3
  have h255 : pand 255 255 = 255 := by decide
  refine ⟨?_, ?_, ?_, ?_, ?_⟩
  · intro hne
    have hm : loadMask p1 p0 q0 q1 (alpha - 1) (beta - 1) = 0 := by
      rw [loadMask_eq, if_neg]
      simp only [filterEdgeSpec] at hne
      omega
    simp only [deblockVLumaIntraLine, if_neg hnz, hm, pand_zero_right, hQ.2.2, hP.2.2]
  · intro hedge hsg hap
    simp only [filterEdgeSpec] at hedge
    simp only [strongGateSpec] at hsg
    simp only [apSpec] at hap
    have hm : loadMask p1 p0 q0 q1 (alpha - 1) (beta - 1) = 255 := by
      rw [loadMask_eq, if_pos]
      omega
    have hg : diffGT2 p0 q0 (pavgb (pavgb (alpha - 1) 0) 1) = 255 := by
      rw [hth, diffGT2_eq, if_pos (by omega)]
    have hm1p : diffGT2 p0 p2 (beta - 1) = 255 := by
      rw [diffGT2_eq, if_pos (by omega)]
    simp only [deblockVLumaIntraLine, if_neg hnz, hm, hg, hm1p, h255, hP.1]
    exact ⟨trivial, trivial, trivial⟩
  · intro hedge hnsp
    simp only [filterEdgeSpec] at hedge
    simp only [strongGateSpec, apSpec, not_and_or] at hnsp
    have hm : loadMask p1 p0 q0 q1 (alpha - 1) (beta - 1) = 255 := by
      rw [loadMask_eq, if_pos]
      omega
    have hm1p : pand (diffGT2 p0 p2 (beta - 1))
        (pand (diffGT2 p0 q0 (pavgb (pavgb (alpha - 1) 0) 1)) 255) = 0 := by
      rcases hnsp with hns | hnap
      · have hg : diffGT2 p0 q0 (pavgb (pavgb (alpha - 1) 0) 1) = 0 := by
          rw [hth, diffGT2_eq, if_neg (by omega)]
        rw [hg, pand_zero_left, pand_zero_right]
      · have hg : diffGT2 p0 p2 (beta - 1) = 0 := by
          rw [diffGT2_eq, if_neg (by omega)]
        rw [hg, pand_zero_left]
    simp only [deblockVLumaIntraLine, if_neg hnz, hm, hm1p, hP.2.1]
    exact ⟨trivial, trivial, trivial⟩
  · intro hedge hsg haq
    simp only [filterEdgeSpec] at hedge
    simp only [strongGateSpec] at hsg
    simp only [apSpec] at haq
    have hm : loadMask p1 p0 q0 q1 (alpha - 1) (beta - 1) = 255 := by
      rw [loadMask_eq, if_pos]
      omega
    have hg : diffGT2 p0 q0 (pavgb (pavgb (alpha - 1) 0) 1) = 255 := by
      rw [hth, diffGT2_eq, if_pos (by omega)]
    have hm1q : diffGT2 q0 q2 (beta - 1) = 255 := by
      rw [diffGT2_eq, if_pos (by omega)]
    simp only [deblockVLumaIntraLine, if_neg hnz, hm, hg, hm1q, h255, hQ.1]
    exact ⟨trivial, trivial, trivial⟩
  · intro hedge hnsq
    simp only [filterEdgeSpec] at hedge
    simp only [strongGateSpec, apSpec, not_and_or] at hnsq
    have hm : loadMask p1 p0 q0 q1 (alpha - 1) (beta - 1) = 255 := by
      rw [loadMask_eq, if_pos]
      omega
    have hm1q : pand (diffGT2 q0 q2 (beta - 1))
        (pand (diffGT2 p0 q0 (pavgb (pavgb (alpha - 1) 0) 1)) 255) = 0 := by
      rcases hnsq with hns | hnaq
      · have hg : diffGT2 p0 q0 (pavgb (pavgb (alpha - 1) 0) 1) = 0 := by
          rw [hth, diffGT2_eq, if_neg (by omega)]
        rw [hg, pand_zero_left, pand_zero_right]
      · have hg : diffGT2 q0 q2 (beta - 1) = 0 := by
          rw [diffGT2_eq, if_neg (by omega)]
        rw [hg, pand_zero_left]
    simp only [deblockVLumaIntraLine, if_neg hnz, hm, hm1q, hQ.2.1]
    exact ⟨trivial, trivial, trivial⟩

/-! ## Chroma characterizations -/

/-- `ff_chroma_intra_body_mmxext` lane behaviour: under the mask the two
outputs are the three-tap averages (with `q1` resp. `p1` as the outer
tap); with the mask clear the samples pass through. -/
theorem chromaIntraLine_eq (p1 p0 q0 q1 alpha beta : Nat) (hp1 : p1 ≤ 255)
    (hp0 : p0 ≤ 255) (hq0 : q0 ≤ 255) (hq1 : q1 ≤ 255) :
    (loadMask p1 p0 q0 q1 (alpha - 1) (beta - 1) = 255 →
       chromaIntraLine p1 p0 q0 q1 alpha beta =
         ((2 * p1 + p0 + q1 + 2) / 4, (2 * q1 + q0 + p1 + 2) / 4)) ∧
    (loadMask p1 p0 q0 q1 (alpha - 1) (beta - 1) = 0 →
       chromaIntraLine p1 p0 q0 q1 alpha beta = (p0, q0)) := by
  have h1 := chromaIntraP0_eq p0 p1 q1 hp0 hp1 hq1
  have h2 := chromaIntraP0_eq q0 q1 p1 hq0 hq1 hp1
  constructor <;> intro hm <;> simp only [chromaIntraLine, hm, h1, h2]
  · rw [psubb_paddb_select255 (by omega) (by omega),
      psubb_paddb_select255 (by omega) (by omega)]
  · rw [psubb_paddb_select0 (by omega), psubb_paddb_select0 (by omega)]

/-- Block semantics of `deblock_v_chroma_intra_8_mmxext`: rows are
`p1, p0, q0, q1` (the entry reads `[t5] .. [r0+r1]`), the intra body runs
on all 8 byte lanes, and only the `p0` and `q0` rows are stored back. -/
def deblockVChromaIntra (alpha beta : Nat) (B : Fin 4 → Fin 8 → Nat) :
    Fin 4 → Fin 8 → Nat :=
  fun r c =>
    if r.val = 1 then (chromaIntraLine (B 0 c) (B 1 c) (B 2 c) (B 3 c) alpha beta).1
    else if r.val = 2 then (chromaIntraLine (B 0 c) (B 1 c) (B 2 c) (B 3 c) alpha beta).2
    else B r c

/-! ## Claim C4: chroma strong (intra) filter line behaviour -/

/-- Claim C4: on every line of a chroma intra call where the mask unit's
`filterEdge` holds, `p0' = (2*p1+p0+q1+2)>>2` and
`q0' = (2*q1+q0+p1+2)>>2`; the `p1` and `q1` rows are never written; a
line whose `filterEdge` fails is entirely unchanged. -/
theorem chroma_intra_line_spec (B : Fin 4 → Fin 8 → Nat) (alpha beta : Nat)
    (hB : ∀ r c, B r c ≤ 255) (c : Fin 8) :
    (deblockVChromaIntra alpha beta B 0 c = B 0 c ∧
     deblockVChromaIntra alpha beta B 3 c = B 3 c) ∧
    (loadMask (B 0 c) (B 1 c) (B 2 c) (B 3 c) (alpha - 1) (beta - 1) = 255 →
       deblockVChromaIntra alpha beta B 1 c = (2 * B 0 c + B 1 c + B 3 c + 2) / 4 ∧
       deblockVChromaIntra alpha beta B 2 c = (2 * B 3 c + B 2 c + B 0 c + 2) / 4) ∧
    (loadMask (B 0 c) (B 1 c) (B 2 c) (B 3 c) (alpha - 1) (beta - 1) = 0 →
       deblockVChromaIntra alpha beta B 1 c = B 1 c ∧
       deblockVChromaIntra alpha beta B 2 c = B 2 c) := by
  have h := chromaIntraLine_eq (B 0 c) (B 1 c) (B 2 c) (B 3 c) alpha beta
    (hB 0 c) (hB 1 c) (hB 2 c) (hB 3 c)
  refine ⟨⟨?_, ?_⟩, fun hm => ⟨?_, ?_⟩, fun hm => ⟨?_, ?_⟩⟩
  · simp only [deblockVChromaIntra]
    rw [if_neg (by decide), if_neg (by decide)]
  · simp only [deblockVChromaIntra]
    rw [if_neg (by decide), if_neg (by decide)]
  · simp only [deblockVChromaIntra]
    rw [if_pos (by decide), h.1 hm]
  · simp only [deblockVChromaIntra]
    rw [if_neg (by decide), if_pos (by decide), h.1 hm]
  · simp only [deblockVChromaIntra]
    rw [if_pos (by decide), h.2 hm]
  · simp only [deblockVChromaIntra]
    rw [if_neg (by decide), if_pos (by decide), h.2 hm]

/-- Witness for C4 at the spec's chroma scenario column. -/
theorem chroma_intra_line_spec_witness :
    deblockVChromaIntra 255 255
      (fun r _ => if r.val = 0 then 100 else if r.val = 1 then 96
                  else if r.val = 2 then 90 else 80) 1 0
      = (2 * 100 + 96 + 80 + 2) / 4 :=
  ((chroma_intra_line_spec _ 255 255 (by decide) 0).2.1 (by decide)).1

/-! ## Claim C9: the spec's chroma intra worked scenario -/

/-- Counterexample to C9 as stated: at the scenario samples (with
`alpha = beta = 255`, under which the gate passes) the outputs are not
`(97, 88)`; the `p0'` arithmetic of the scenario wrongly uses `q0`. -/
theorem chroma_intra_scenario_not_97 :
    ¬ chromaIntraLine 100 96 90 80 255 255 = (97, 88) := by decide

/-- C9 amended: for any `alpha`, `beta` whose mask passes at
`p1=100, p0=96, q0=90, q1=80`, the outputs are `p0' = 94` (from
`(2*100+96+80+2)>>2`, the formula using `q1 = 80`) and `q0' = 88`. -/
theorem chroma_intra_scenario_values (alpha beta : Nat)
    (hm : loadMask 100 96 90 80 (alpha - 1) (beta - 1) = 255) :
    chromaIntraLine 100 96 90 80 alpha beta = (94, 88) :=
  (chromaIntraLine_eq 100 96 90 80 alpha beta (by omega) (by omega) (by omega)
    (by omega)).1 hm

/-- Witness for the amended C9 at `alpha = beta = 255`. -/
theorem chroma_intra_scenario_values_witness :
    chromaIntraLine 100 96 90 80 255 255 = (94, 88) :=
  chroma_intra_scenario_values 255 255 (by decide)

/-! ## Claim C10: the chroma normal filter's tc handling -/

/-- Claim C10: the chroma normal body never tests its `tc` byte against
the sentinel: the byte is ANDed with the mask and used directly as the
`DEBLOCK_P0_Q0` clip bound, so a zero `tc` leaves `p0, q0` unchanged on
every line, while `tc = 0xFF` filters with a maximal bound (the concrete
line shows it modifying samples). -/
theorem chroma_normal_tc_is_direct_clip_bound :
    (∀ p1 p0 q0 q1 alpha beta : Nat, p0 ≤ 255 → q0 ≤ 255 →
       chromaInterLine p1 p0 q0 q1 alpha beta 0 = (p0, q0)) ∧
    (∀ p1 p0 q0 q1 alpha beta tc : Nat, tc ≤ 255 →
       loadMask p1 p0 q0 q1 (alpha - 1) (beta - 1) = 255 →
       chromaInterLine p1 p0 q0 q1 alpha beta tc = deblockP0Q0 p1 p0 q0 q1 tc) ∧
    chromaInterLine 90 90 100 100 255 255 255 ≠ (90, 100) := by
  refine ⟨?_, ?_, by decide⟩
  · intro p1 p0 q0 q1 alpha beta hp0 hq0
    simp only [chromaInterLine, pand_zero_right]
    exact deblockP0Q0_zero p1 p0 q0 q1 hp0 hq0
  · intro p1 p0 q0 q1 alpha beta tc htc hm
    simp only [chromaInterLine, hm, pand_255_left (show tc < 256 by omega)]

/-- Witness for C10: a zero `tc` line and a masked line evaluated through
the theorem. -/
theorem chroma_normal_tc_is_direct_clip_bound_witness :
    chromaInterLine 12 34 56 78 200 100 0 = (34, 56) :=
  chroma_normal_tc_is_direct_clip_bound.1 12 34 56 78 200 100 (by decide) (by decide)

/-! ## Claim C5: the sentinel tc0 group is never modified -/

/-- Claim C5: a luma normal-filter line whose group `tc0` byte is the
sentinel `-1` (`0xFF`) is left unchanged by both the x86-64 and the
x86-32 cores, for all samples and thresholds; a line with a non-negative
`tc0` may still be filtered (the spec's worked scenario line is). -/
theorem luma_sentinel_group_unchanged :
    (∀ p2 p1 p0 q0 q1 q2 alpha beta : Nat, p1 ≤ 255 → p0 ≤ 255 → q0 ≤ 255 → q1 ≤ 255 →
       deblockVLumaLine p2 p1 p0 q0 q1 q2 alpha beta 255 = (p1, p0, q0, q1) ∧
       deblockV8LumaLine p2 p1 p0 q0 q1 q2 alpha beta 255 = (p1, p0, q0, q1)) ∧
    deblockVLumaLine 92 94 96 100 98 96 20 10 2 ≠ (94, 96, 100, 98) := by
  refine ⟨?_, by decide⟩
  intro p2 p1 p0 q0 q1 q2 alpha beta hp1 hp0 hq0 hq1
  constructor
  · have h9 : pandn (pcmpeqb 255 255) (loadMask p1 p0 q0 q1 (alpha - 1) (beta - 1)) = 0 := by
      rw [pcmpeqb, if_pos rfl, pandn, Nat.xor_self, Nat.zero_and]
    simp only [deblockVLumaLine, h9, pand_zero_right, pand_zero_left,
      show psubb (psubb 0 0) 0 = 0 from rfl,
      lumaQ1_zero p1 p2 p0 q0 hp1, lumaQ1_zero q1 q2 p0 q0 hq1,
      deblockP0Q0_zero p1 p0 q0 q1 hp0 hq0]
  · have hgt : pcmpgtb 255 255 = 0 := by decide
    simp only [deblockV8LumaLine, hgt, pand_zero_left, pand_zero_right,
      show psubb (psubb 0 0) 0 = 0 from rfl,
      lumaQ1_zero p1 p2 p0 q0 hp1, lumaQ1_zero q1 q2 p0 q0 hq1,
      deblockP0Q0_zero p1 p0 q0 q1 hp0 hq0]

/-- Witness for C5 on a concrete line. -/
theorem luma_sentinel_group_unchanged_witness :
    deblockVLumaLine 1 2 3 4 5 6 255 255 255 = (2, 3, 4, 5) :=
  ((luma_sentinel_group_unchanged.1 1 2 3 4 5 6 255 255
    (by decide) (by decide) (by decide) (by decide)).1)

/-! ## Claim C6: alpha = 0 / beta = 0 behaviour -/

/-- Counterexample to C6 as stated: the luma normal entry point called
with `alpha = 0` still modifies samples (the stored `alpha-1 = -1` byte
saturates to 0 in `packuswb`, so lines with `p0 = q0` stay eligible and a
nonzero delta from `p1 - q1` is applied). -/
theorem alpha_zero_normal_filter_still_modifies :
    deblockVLumaLine 200 110 100 100 90 0 0 11 1 ≠ (110, 100, 100, 90) := by decide

/-- C6 amended: the luma intra entry point's explicit `jl .end` exits
make `alpha = 0` or `beta = 0` modify nothing; the normal-filter entry
points have no such exit, and their saturated `alpha-1`/`beta-1` bytes
make `alpha = 0` behave exactly like `alpha = 1` (and `beta = 0` like
`beta = 1`), which can still modify samples. -/
theorem alpha_beta_zero_intra_exits_normal_saturates :
    (∀ p3 p2 p1 p0 q0 q1 q2 q3 beta c1 c2 c3 c4 c5 c6 : Nat,
       deblockVLumaIntraLine p3 p2 p1 p0 q0 q1 q2 q3 0 beta c1 c2 c3 c4 c5 c6
         = (p2, p1, p0, q0, q1, q2)) ∧
    (∀ p3 p2 p1 p0 q0 q1 q2 q3 alpha c1 c2 c3 c4 c5 c6 : Nat,
       deblockVLumaIntraLine p3 p2 p1 p0 q0 q1 q2 q3 alpha 0 c1 c2 c3 c4 c5 c6
         = (p2, p1, p0, q0, q1, q2)) ∧
    (∀ p2 p1 p0 q0 q1 q2 beta tc : Nat,
       deblockVLumaLine p2 p1 p0 q0 q1 q2 0 beta tc
         = deblockVLumaLine p2 p1 p0 q0 q1 q2 1 beta tc) ∧
    (∀ p2 p1 p0 q0 q1 q2 alpha tc : Nat,
       deblockVLumaLine p2 p1 p0 q0 q1 q2 alpha 0 tc
         = deblockVLumaLine p2 p1 p0 q0 q1 q2 alpha 1 tc) ∧
    (∀ p1 p0 q0 q1 beta tc : Nat,
       chromaInterLine p1 p0 q0 q1 0 beta tc = chromaInterLine p1 p0 q0 q1 1 beta tc) := by
  refine ⟨?_, ?_, ?_, ?_, ?_⟩
  · intro p3 p2 p1 p0 q0 q1 q2 q3 beta c1 c2 c3 c4 c5 c6
    rw [deblockVLumaIntraLine, if_pos (Or.inl rfl)]
  · intro p3 p2 p1 p0 q0 q1 q2 q3 alpha c1 c2 c3 c4 c5 c6
    rw [deblockVLumaIntraLine, if_pos (Or.inr rfl)]
  · intro p2 p1 p0 q0 q1 q2 beta tc
    rfl
  · intro p2 p1 p0 q0 q1 q2 alpha tc
    rfl
  · intro p1 p0 q0 q1 beta tc
    rfl

/-! ## Claim C3: the threshold/mask unit -/

/-- Counterexample to C3 as stated: with `alpha = 0` (stored byte
`0 - 1`, saturated to 0) and `beta = 1`, the all-equal line gets
`filterEdge = true` from the code while `|p0-q0| < 0` is false. -/
theorem load_mask_alpha_zero_saturates :
    ¬ (loadMask 0 0 0 0 (0 - 1) (1 - 1) = 255 ↔ filterEdgeSpec 0 0 0 0 0 1) := by decide

/-- C3 amended: for `alpha, beta` in `[1, 255]` the mask unit's flag is
255 exactly when `|p0-q0| < alpha`, `|p1-p0| < beta` and `|q1-q0| < beta`
all hold on the stored `alpha-1`/`beta-1` bytes, and the flag is always
255 or 0 (at `alpha = 0` or `beta = 0` the stored byte saturates to 0 and
the unit behaves as for `alpha = 1` / `beta = 1`). -/
theorem load_mask_matches_spec_thresholds (p1 p0 q0 q1 alpha beta : Nat)
    (hp1 : p1 ≤ 255) (hp0 : p0 ≤ 255) (hq0 : q0 ≤ 255) (hq1 : q1 ≤ 255)
    (ha1 : 1 ≤ alpha) (ha2 : alpha ≤ 255) (hb1 : 1 ≤ beta) (hb2 : beta ≤ 255) :
    ((loadMask p1 p0 q0 q1 (alpha - 1) (beta - 1) = 255 ↔
        filterEdgeSpec p1 p0 q0 q1 alpha beta) ∧
     (loadMask p1 p0 q0 q1 (alpha - 1) (beta - 1) = 255 ∨
        loadMask p1 p0 q0 q1 (alpha - 1) (beta - 1) = 0)) := by
  rw [loadMask_eq]
  by_cases h : (max p0 q0 - min p0 q0 ≤ alpha - 1 ∧ max p1 p0 - min p1 p0 ≤ beta - 1 ∧
      max q1 q0 - min q1 q0 ≤ beta - 1)
  · rw [if_pos h]
    exact ⟨⟨fun _ => by simp only [filterEdgeSpec]; omega, fun _ => rfl⟩, Or.inl rfl⟩
  · rw [if_neg h]
    refine ⟨⟨fun hx => absurd hx (by omega), fun hx => ?_⟩, Or.inr rfl⟩
    exfalso
    apply h
    simp only [filterEdgeSpec] at hx
    omega

/-- Witness for the amended C3. -/
theorem load_mask_matches_spec_thresholds_witness :
    (loadMask 5 5 6 6 (3 - 1) (2 - 1) = 255 ↔ filterEdgeSpec 5 5 6 6 3 2) ∧
    (loadMask 5 5 6 6 (3 - 1) (2 - 1) = 255 ∨ loadMask 5 5 6 6 (3 - 1) (2 - 1) = 0) :=
  load_mask_matches_spec_thresholds 5 5 6 6 3 2 (by decide) (by decide) (by decide)
    (by decide) (by decide) (by decide) (by decide) (by decide)

/-! ## Claim C1: luma normal filter scalar equations -/

/-- Counterexample to C1 as stated: with `tc0 = 254` (not the sentinel)
and `alpha = beta = 255`, a line passing `filterEdge` gets
`p0' = 94` from the SIMD pipeline while the scalar equation demands
`Clip1(p0 + delta) = 159`: the positive delta saturates at `255-161=94`
in the byte code. -/
theorem luma_normal_line_large_tc0_diverges :
    ¬ (((deblockVLumaLine 255 254 0 254 0 0 255 255 254).2.1 : Int) =
        Clip1 ((0 : Int) + deltaSpec 254 0 254 0
          (254 + (if apSpec 255 0 255 then 1 else 0)
               + (if apSpec 0 254 255 then 1 else 0)))) := by decide

/-- C1 amended: on every line where `filterEdge` holds, with the group's
`tc0` byte at most 92 (every conformant `tc0`; the H.264 table maximum is
25), the luma normal filter writes exactly the spec's four equations with
`tC = tc0 + ap + aq` and the arithmetic-shift delta. -/
theorem luma_normal_line_scalar_equations (p2 p1 p0 q0 q1 q2 alpha beta tc : Nat)
    (hp2 : p2 ≤ 255) (hp1 : p1 ≤ 255) (hp0 : p0 ≤ 255) (hq0 : q0 ≤ 255)
    (hq1 : q1 ≤ 255) (hq2 : q2 ≤ 255) (htc : tc ≤ 92)
    (hedge : filterEdgeSpec p1 p0 q0 q1 alpha beta) :
    (((deblockVLumaLine p2 p1 p0 q0 q1 q2 alpha beta tc).1 : Int) =
       (if apSpec p2 p0 beta then lumaP1Spec p1 p2 p0 q0 tc else (p1 : Int))) ∧
    (((deblockVLumaLine p2 p1 p0 q0 q1 q2 alpha beta tc).2.1 : Int) =
       Clip1 ((p0 : Int) + deltaSpec p1 p0 q0 q1
         (tc + (if apSpec p2 p0 beta then 1 else 0)
             + (if apSpec q2 q0 beta then 1 else 0)))) ∧
    (((deblockVLumaLine p2 p1 p0 q0 q1 q2 alpha beta tc).2.2.1 : Int) =
       Clip1 ((q0 : Int) - deltaSpec p1 p0 q0 q1
         (tc + (if apSpec p2 p0 beta then 1 else 0)
             + (if apSpec q2 q0 beta then 1 else 0)))) ∧
    (((deblockVLumaLine p2 p1 p0 q0 q1 q2 alpha beta tc).2.2.2 : Int) =
       (if apSpec q2 q0 beta then lumaP1Spec q1 q2 p0 q0 tc else (q1 : Int))) := by
  obtain ⟨he1, he2, he3⟩ := hedge
  have hmask : loadMask p1 p0 q0 q1 (alpha - 1) (beta - 1) = 255 := by
    rw [loadMask_eq, if_pos (by omega)]
  have h := deblockVLumaLine_eq p2 p1 p0 q0 q1 q2 alpha beta tc hp2 hp1 hp0 hq0 hq1 hq2
    htc hmask
  have e1 : (max p0 p2 - min p0 p2 ≤ beta - 1) = apSpec p2 p0 beta :=
    propext (by constructor <;> (intro hx; simp only [apSpec] at *; omega))
  have e2 : (max q0 q2 - min q0 q2 ≤ beta - 1) = apSpec q2 q0 beta :=
    propext (by constructor <;> (intro hx; simp only [apSpec] at *; omega))
  simp only [e1, e2] at h
  exact h

/-- Witness for the amended C1 at the spec's worked luma scenario. -/
theorem luma_normal_line_scalar_equations_witness :
    ((deblockVLumaLine 92 94 96 100 98 96 20 10 2).2.1 : Int) =
      Clip1 ((96 : Int) + deltaSpec 94 96 100 98
        (2 + (if apSpec 92 96 10 then 1 else 0) + (if apSpec 96 100 10 then 1 else 0))) :=
  (luma_normal_line_scalar_equations 92 94 96 100 98 96 20 10 2 (by decide) (by decide)
    (by decide) (by decide) (by decide) (by decide) (by decide)
    ⟨by decide, by decide, by decide⟩).2.1

/-! ## Claim C2: luma strong (intra) filter piecewise behaviour -/

/-- Counterexample to C2 as stated: on a `filterEdge` line whose strong
gate fails (with `q0 = 150 ≠ q1 = 160`), the code writes
`p0' = (2*p1+p0+q1+2)>>2 = 115`, not the claim's
`(2*p1+p0+q0+2)>>2 = 113`: the fallback tap is `q1`, not `q0` (the
source comment `p0'b = (2*p1+p0+q0+2)/4` is itself wrong about the
`pavgb t2, p0, q1` operand). -/
theorem luma_intra_weak_p0_uses_q1 :
    (deblockVLumaIntraLine 100 100 100 100 150 160 150 150 100 20 0 0 0 0 0 0).2.2.1
      ≠ (2 * 100 + 100 + 150 + 2) / 4 := by decide

/-- C2 amended: the three-sample p-side update is applied exactly when
`filterEdge`, `|p0-q0| < (alpha>>2)+2` and `|p2-p0| < beta` all hold;
when `filterEdge` holds but the stricter conjunction fails, only
`p0' = (2*p1 + p0 + q1 + 2) >> 2` is applied (with `q1`, not `q0`) and
`p1, p2` stay unchanged; the q side is symmetric; no `tc0` is consulted
(the model takes none). -/
theorem luma_intra_piecewise (p3 p2 p1 p0 q0 q1 q2 q3 alpha beta : Nat)
    (cp1 cp2 cp3 cq1 cq2 cq3 : Nat)
    (hp3 : p3 ≤ 255) (hp2 : p2 ≤ 255) (hp1 : p1 ≤ 255) (hp0 : p0 ≤ 255)
    (hq0 : q0 ≤ 255) (hq1 : q1 ≤ 255) (hq2 : q2 ≤ 255) (hq3 : q3 ≤ 255)
    (ha1 : 1 ≤ alpha) (ha2 : alpha ≤ 255) (hb1 : 1 ≤ beta) (hb2 : beta ≤ 255)
    (hcp1 : cp1 ≤ 1) (hcp2 : cp2 ≤ 3) (hcp3 : cp3 ≤ 3)
    (hcq1 : cq1 ≤ 1) (hcq2 : cq2 ≤ 3) (hcq3 : cq3 ≤ 3) :
    (¬ filterEdgeSpec p1 p0 q0 q1 alpha beta →
       deblockVLumaIntraLine p3 p2 p1 p0 q0 q1 q2 q3 alpha beta cp1 cp2 cp3 cq1 cq2 cq3
         = (p2, p1, p0, q0, q1, q2)) ∧
    (filterEdgeSpec p1 p0 q0 q1 alpha beta → strongGateSpec p0 q0 alpha → apSpec p2 p0 beta →
      ((deblockVLumaIntraLine p3 p2 p1 p0 q0 q1 q2 q3 alpha beta cp1 cp2 cp3 cq1 cq2 cq3).1
          = (2 * p3 + 3 * p2 + p1 + p0 + q0 + 4) / 8 ∧
       (deblockVLumaIntraLine p3 p2 p1 p0 q0 q1 q2 q3 alpha beta cp1 cp2 cp3 cq1 cq2 cq3).2.1
          = (p2 + p1 + p0 + q0 + 2) / 4 ∧
       (deblockVLumaIntraLine p3 p2 p1 p0 q0 q1 q2 q3 alpha beta cp1 cp2 cp3 cq1 cq2 cq3).2.2.1
          = (p2 + 2 * p1 + 2 * p0 + 2 * q0 + q1 + 4) / 8)) ∧
    (filterEdgeSpec p1 p0 q0 q1 alpha beta →
      ¬ (strongGateSpec p0 q0 alpha ∧ apSpec p2 p0 beta) →
      ((deblockVLumaIntraLine p3 p2 p1 p0 q0 q1 q2 q3 alpha beta cp1 cp2 cp3 cq1 cq2 cq3).1
          = p2 ∧
       (deblockVLumaIntraLine p3 p2 p1 p0 q0 q1 q2 q3 alpha beta cp1 cp2 cp3 cq1 cq2 cq3).2.1
          = p1 ∧
       (deblockVLumaIntraLine p3 p2 p1 p0 q0 q1 q2 q3 alpha beta cp1 cp2 cp3 cq1 cq2 cq3).2.2.1
          = (2 * p1 + p0 + q1 + 2) / 4)) ∧
    (filterEdgeSpec p1 p0 q0 q1 alpha beta → strongGateSpec p0 q0 alpha → apSpec q2 q0 beta →
      ((deblockVLumaIntraLine p3 p2 p1 p0 q0 q1 q2 q3 alpha beta cp1 cp2 cp3 cq1 cq2 cq3).2.2.2.1
          = (q2 + 2 * q1 + 2 * q0 + 2 * p0 + p1 + 4) / 8 ∧
       (deblockVLumaIntraLine p3 p2 p1 p0 q0 q1 q2 q3 alpha beta cp1 cp2 cp3 cq1 cq2 cq3).2.2.2.2.1
          = (q2 + q1 + q0 + p0 + 2) / 4 ∧
       (deblockVLumaIntraLine p3 p2 p1 p0 q0 q1 q2 q3 alpha beta cp1 cp2 cp3 cq1 cq2 cq3).2.2.2.2.2
          = (2 * q3 + 3 * q2 + q1 + q0 + p0 + 4) / 8)) ∧
    (filterEdgeSpec p1 p0 q0 q1 alpha beta →
      ¬ (strongGateSpec p0 q0 alpha ∧ apSpec q2 q0 beta) →
      ((deblockVLumaIntraLine p3 p2 p1 p0 q0 q1 q2 q3 alpha beta cp1 cp2 cp3 cq1 cq2 cq3).2.2.2.1
          = (2 * q1 + q0 + p1 + 2) / 4 ∧
       (deblockVLumaIntraLine p3 p2 p1 p0 q0 q1 q2 q3 alpha beta cp1 cp2 cp3 cq1 cq2 cq3).2.2.2.2.1
          = q1 ∧
       (deblockVLumaIntraLine p3 p2 p1 p0 q0 q1 q2 q3 alpha beta cp1 cp2 cp3 cq1 cq2 cq3).2.2.2.2.2
          = q2)) :=
  deblockVLumaIntraLine_eq p3 p2 p1 p0 q0 q1 q2 q3 alpha beta cp1 cp2 cp3 cq1 cq2 cq3
    hp3 hp2 hp1 hp0 hq0 hq1 hq2 hq3 ha1 ha2 hb1 hb2 hcp1 hcp2 hcp3 hcq1 hcq2 hcq3

/-- Witness for the amended C2 at a concrete weak-fallback line. -/
theorem luma_intra_piecewise_witness :
    (deblockVLumaIntraLine 100 100 100 100 150 160 150 150 100 20 0 0 0 0 0 0).2.2.1
      = (2 * 100 + 100 + 160 + 2) / 4 :=
  ((luma_intra_piecewise 100 100 100 100 150 160 150 150 100 20 0 0 0 0 0 0
    (by decide) (by decide) (by decide) (by decide) (by decide) (by decide) (by decide)
    (by decide) (by decide) (by decide) (by decide) (by decide) (by decide) (by decide)
    (by decide) (by decide) (by decide) (by decide)).2.2.1 (by decide) (by decide)).2.2

/-! ## Claim C8: symmetry under p/q exchange -/

/-- Counterexample to C8 as stated: at a rounding tie
(`4*(q0-p0) + (p1-q1) + 4 ≡ 0 mod 8`), the `+4` bias rounds the delta
asymmetrically, so the mirrored line's `p0'` is not the original line's
`q0'`. -/
theorem luma_mirror_tie_asymmetry :
    (deblockVLumaLine 100 100 101 100 100 100 10 10 1).2.1
      ≠ (deblockVLumaLine 100 100 100 101 100 100 10 10 1).2.2.1 := by decide

/-- Away from the mod-8 rounding tie, mirroring the line negates the
spec's clipped delta exactly. -/
theorem deltaSpec_neg (p1 p0 q0 q1 T : Nat)
    (htie : (4 * ((q0 : Int) - (p0 : Int)) + ((p1 : Int) - (q1 : Int)) + 4) % 8 ≠ 0) :
    deltaSpec q1 q0 p0 p1 T = - deltaSpec p1 p0 q0 q1 T := by
  unfold deltaSpec clip3
  omega

/-- The `p1` update formula only uses `p0 + q0`, so the two center
samples may be exchanged. -/
theorem lumaP1Spec_comm (p1 p2 p0 q0 tc : Nat) :
    lumaP1Spec p1 p2 q0 p0 tc = lumaP1Spec p1 p2 p0 q0 tc := by
  unfold lumaP1Spec clip3
  omega

/-- C8 amended: the luma normal filter is symmetric under side exchange
on every eligible line that is not a rounding tie of the delta numerator
(mod 8) and has a conformant `tc0 ≤ 92`; the strong (intra) filter is
unconditionally symmetric under side exchange (with the word-shift
contamination exchanged alongside). -/
theorem luma_mirror_symmetry (p3 p2 p1 p0 q0 q1 q2 q3 alpha beta tc : Nat)
    (cp1 cp2 cp3 cq1 cq2 cq3 : Nat) :
    ((p2 ≤ 255) → (p1 ≤ 255) → (p0 ≤ 255) → (q0 ≤ 255) → (q1 ≤ 255) → (q2 ≤ 255) →
     (tc ≤ 92) → filterEdgeSpec p1 p0 q0 q1 alpha beta →
     (4 * ((q0 : Int) - (p0 : Int)) + ((p1 : Int) - (q1 : Int)) + 4) % 8 ≠ 0 →
       ((deblockVLumaLine q2 q1 q0 p0 p1 p2 alpha beta tc).1
          = (deblockVLumaLine p2 p1 p0 q0 q1 q2 alpha beta tc).2.2.2 ∧
        (deblockVLumaLine q2 q1 q0 p0 p1 p2 alpha beta tc).2.1
          = (deblockVLumaLine p2 p1 p0 q0 q1 q2 alpha beta tc).2.2.1 ∧
        (deblockVLumaLine q2 q1 q0 p0 p1 p2 alpha beta tc).2.2.1
          = (deblockVLumaLine p2 p1 p0 q0 q1 q2 alpha beta tc).2.1 ∧
        (deblockVLumaLine q2 q1 q0 p0 p1 p2 alpha beta tc).2.2.2
          = (deblockVLumaLine p2 p1 p0 q0 q1 q2 alpha beta tc).1)) ∧
    (deblockVLumaIntraLine q3 q2 q1 q0 p0 p1 p2 p3 alpha beta cq1 cq2 cq3 cp1 cp2 cp3
       = ((deblockVLumaIntraLine p3 p2 p1 p0 q0 q1 q2 q3 alpha beta
             cp1 cp2 cp3 cq1 cq2 cq3).2.2.2.2.2,
          (deblockVLumaIntraLine p3 p2 p1 p0 q0 q1 q2 q3 alpha beta
             cp1 cp2 cp3 cq1 cq2 cq3).2.2.2.2.1,
          (deblockVLumaIntraLine p3 p2 p1 p0 q0 q1 q2 q3 alpha beta
             cp1 cp2 cp3 cq1 cq2 cq3).2.2.2.1,
          (deblockVLumaIntraLine p3 p2 p1 p0 q0 q1 q2 q3 alpha beta
             cp1 cp2 cp3 cq1 cq2 cq3).2.2.1,
          (deblockVLumaIntraLine p3 p2 p1 p0 q0 q1 q2 q3 alpha beta
             cp1 cp2 cp3 cq1 cq2 cq3).2.1,
          (deblockVLumaIntraLine p3 p2 p1 p0 q0 q1 q2 q3 alpha beta
             cp1 cp2 cp3 cq1 cq2 cq3).1)) := by
  constructor
  · intro hp2 hp1 hp0 hq0 hq1 hq2 htc hedge htie
    obtain ⟨he1, he2, he3⟩ := hedge
    have hmask : loadMask p1 p0 q0 q1 (alpha - 1) (beta - 1) = 255 := by
      rw [loadMask_eq, if_pos (by omega)]
    have hmaskm : loadMask q1 q0 p0 p1 (alpha - 1) (beta - 1) = 255 := by
      rw [loadMask_eq, if_pos (by omega)]
    obtain ⟨h1a, h1b, h1c, h1d⟩ := deblockVLumaLine_eq p2 p1 p0 q0 q1 q2 alpha beta tc
      hp2 hp1 hp0 hq0 hq1 hq2 htc hmask
    obtain ⟨h2a, h2b, h2c, h2d⟩ := deblockVLumaLine_eq q2 q1 q0 p0 p1 p2 alpha beta tc
      hq2 hq1 hq0 hp0 hp1 hp2 htc hmaskm
    have hd := deltaSpec_neg p1 p0 q0 q1
      (tc + (if max p0 p2 - min p0 p2 ≤ beta - 1 then 1 else 0)
          + (if max q0 q2 - min q0 q2 ≤ beta - 1 then 1 else 0)) htie
    rw [lumaP1Spec_comm q1 q2 p0 q0 tc] at h2a
    rw [lumaP1Spec_comm p1 p2 p0 q0 tc] at h2d
    rw [Nat.add_right_comm] at h2b h2c
    rw [hd, ← sub_eq_add_neg] at h2b
    rw [hd, sub_neg_eq_add] at h2c
    exact ⟨by exact_mod_cast h2a.trans h1d.symm, by exact_mod_cast h2b.trans h1c.symm,
      by exact_mod_cast h2c.trans h1b.symm, by exact_mod_cast h2d.trans h1a.symm⟩
  · by_cases hz : alpha = 0 ∨ beta = 0
    · rw [deblockVLumaIntraLine, if_pos hz, deblockVLumaIntraLine, if_pos hz]
    · have hm : loadMask q1 q0 p0 p1 (alpha - 1) (beta - 1)
          = loadMask p1 p0 q0 q1 (alpha - 1) (beta - 1) := by
        rw [loadMask_eq, loadMask_eq]
        have h : (max q0 p0 - min q0 p0 ≤ alpha - 1 ∧ max q1 q0 - min q1 q0 ≤ beta - 1 ∧
            max p1 p0 - min p1 p0 ≤ beta - 1)
            = (max p0 q0 - min p0 q0 ≤ alpha - 1 ∧ max p1 p0 - min p1 p0 ≤ beta - 1 ∧
            max q1 q0 - min q1 q0 ≤ beta - 1) :=
          propext (by constructor <;> (intro h'; omega))
        simp only [h]
      have hg : diffGT2 q0 p0 (pavgb (pavgb (alpha - 1) 0) 1)
          = diffGT2 p0 q0 (pavgb (pavgb (alpha - 1) 0) 1) := by
        rw [diffGT2_eq, diffGT2_eq]
        have h : (max q0 p0 - min q0 p0 ≤ pavgb (pavgb (alpha - 1) 0) 1)
            = (max p0 q0 - min p0 q0 ≤ pavgb (pavgb (alpha - 1) 0) 1) :=
          propext (by constructor <;> (intro h'; omega))
        simp only [h]
      simp only [deblockVLumaIntraLine, if_neg hz, hm, hg]

/-- Witness for the amended C8 on a concrete non-tie line. -/
theorem luma_mirror_symmetry_witness :
    (deblockVLumaLine 102 102 102 100 100 100 10 10 1).1
      = (deblockVLumaLine 100 100 100 102 102 102 10 10 1).2.2.2 :=
  ((luma_mirror_symmetry 0 100 100 100 102 102 102 0 10 10 1 0 0 0 0 0 0).1
    (by decide) (by decide) (by decide) (by decide) (by decide) (by decide) (by decide)
    ⟨by decide, by decide, by decide⟩ (by decide)).1

/-! ## Claim C7: horizontal entry points as transpose-conjugated vertical
filtering -/

/-- Block semantics of `deblock_v_luma_8`: rows `0..5` are
`p2, p1, p0, q0, q1, q2` of the 16 byte lanes; each lane's `tc` byte is
`tc0[lane/4]` (the `punpcklbw` expansion of the 4-byte `tc0` array); the
stores write back the `p1, p0, q0, q1` rows. -/
def deblockVLuma (alpha beta : Nat) (tc0 : Fin 4 → Nat) (B : Fin 6 → Fin 16 → Nat) :
    Fin 6 → Fin 16 → Nat :=
  fun r c =>
    let t := deblockVLumaLine (B 0 c) (B 1 c) (B 2 c) (B 3 c) (B 4 c) (B 5 c) alpha beta
      (tc0 ⟨c.val / 4, by have := c.isLt; omega⟩)
    if r.val = 1 then t.1
    else if r.val = 2 then t.2.1
    else if r.val = 3 then t.2.2.1
    else if r.val = 4 then t.2.2.2
    else B r c

/-- Block semantics of `deblock_h_luma_8` (x86-64): the 16 rows of 8
columns `p3..q3` around the vertical edge; `TRANSPOSE6x8_MEM` gathers the
middle six columns (`p2..q2`) into the scratch rows, `deblock_v_luma_8`
runs on the scratch with stride 16, and `TRANSPOSE8x4B_STORE` scatters
only the four middle rows (`p1, p0, q0, q1`) back to the columns
`2..5`. -/
def deblockHLuma (alpha beta : Nat) (tc0 : Fin 4 → Nat) (R : Fin 16 → Fin 8 → Nat) :
    Fin 16 → Fin 8 → Nat :=
  let T : Fin 6 → Fin 16 → Nat := fun r c => R c ⟨r.val + 1, by have := r.isLt; omega⟩
  let F := deblockVLuma alpha beta tc0 T
  fun r c =>
    if h : 2 ≤ c.val ∧ c.val ≤ 5 then F ⟨c.val - 1, by omega⟩ r else R r c

/-- Modelled from the spec: the horizontal luma filter applied directly
to each pixel row (`filtering a vertical edge directly`, spec section
4.6), one `deblock_v_luma_8` line per row, writing the middle four
columns. -/
def deblockHLumaDirect (alpha beta : Nat) (tc0 : Fin 4 → Nat) (R : Fin 16 → Fin 8 → Nat) :
    Fin 16 → Fin 8 → Nat :=
  fun r c =>
    let t := deblockVLumaLine (R r 1) (R r 2) (R r 3) (R r 4) (R r 5) (R r 6) alpha beta
      (tc0 ⟨r.val / 4, by have := r.isLt; omega⟩)
    if c.val = 2 then t.1
    else if c.val = 3 then t.2.1
    else if c.val = 4 then t.2.2.1
    else if c.val = 5 then t.2.2.2
    else R r c

/-- Block semantics of `deblock_v_luma_intra_8`: rows `0..7` are
`p3..q3`; the six middle rows are written back; `cs` assigns each lane
its six `psrlw` contamination bits. -/
def deblockVLumaIntra (alpha beta : Nat)
    (cs : Fin 16 → (Nat × Nat × Nat) × (Nat × Nat × Nat)) (B : Fin 8 → Fin 16 → Nat) :
    Fin 8 → Fin 16 → Nat :=
  fun r c =>
    let t := deblockVLumaIntraLine (B 0 c) (B 1 c) (B 2 c) (B 3 c) (B 4 c) (B 5 c) (B 6 c)
      (B 7 c) alpha beta
      (cs c).1.1 (cs c).1.2.1 (cs c).1.2.2 (cs c).2.1 (cs c).2.2.1 (cs c).2.2.2
    if r.val = 1 then t.1
    else if r.val = 2 then t.2.1
    else if r.val = 3 then t.2.2.1
    else if r.val = 4 then t.2.2.2.1
    else if r.val = 5 then t.2.2.2.2.1
    else if r.val = 6 then t.2.2.2.2.2
    else B r c

/-- Block semantics of `deblock_h_luma_intra_8` (x86-64):
`TRANSPOSE8x8_MEM` gathers all eight columns into the scratch,
`deblock_v_luma_intra_8` runs on the scratch, and both `TRANSPOSE8x8_MEM`
calls scatter all eight columns back (`we can't write only 6 pixels, so
really 16x8`). -/
def deblockHLumaIntra (alpha beta : Nat)
    (cs : Fin 16 → (Nat × Nat × Nat) × (Nat × Nat × Nat)) (R : Fin 16 → Fin 8 → Nat) :
    Fin 16 → Fin 8 → Nat :=
  let T : Fin 8 → Fin 16 → Nat := fun r c => R c r
  let F := deblockVLumaIntra alpha beta cs T
  fun r c => F c r

/-- Modelled from the spec: the horizontal luma intra filter applied
directly to each pixel row, one `deblock_v_luma_intra_8` line per row. -/
def deblockHLumaIntraDirect (alpha beta : Nat)
    (cs : Fin 16 → (Nat × Nat × Nat) × (Nat × Nat × Nat)) (R : Fin 16 → Fin 8 → Nat) :
    Fin 16 → Fin 8 → Nat :=
  fun r c =>
    let t := deblockVLumaIntraLine (R r 0) (R r 1) (R r 2) (R r 3) (R r 4) (R r 5) (R r 6)
      (R r 7) alpha beta
      (cs r).1.1 (cs r).1.2.1 (cs r).1.2.2 (cs r).2.1 (cs r).2.2.1 (cs r).2.2.2
    if c.val = 1 then t.1
    else if c.val = 2 then t.2.1
    else if c.val = 3 then t.2.2.1
    else if c.val = 4 then t.2.2.2.1
    else if c.val = 5 then t.2.2.2.2.1
    else if c.val = 6 then t.2.2.2.2.2
    else R r c

/-- Claim C7: for every sample block, thresholds and `tc0` array (and any
contamination assignment), the transposing horizontal entry points
produce byte-identical output to running the vertical-edge line filter
directly along each pixel row. -/
theorem deblock_h_is_transposed_v (alpha beta : Nat) (tc0 : Fin 4 → Nat)
    (cs : Fin 16 → (Nat × Nat × Nat) × (Nat × Nat × Nat)) (R : Fin 16 → Fin 8 → Nat) :
    deblockHLuma alpha beta tc0 R = deblockHLumaDirect alpha beta tc0 R ∧
    deblockHLumaIntra alpha beta cs R = deblockHLumaIntraDirect alpha beta cs R := by
  constructor
  · funext r c
    fin_cases c <;>
      simp only [deblockHLuma, deblockHLumaDirect, deblockVLuma] <;> norm_num <;> rfl
  · funext r c
    fin_cases c <;>
      simp only [deblockHLumaIntra, deblockHLumaIntraDirect, deblockVLumaIntra] <;>
      norm_num <;> rfl
